import Mathlib

/-!
Verification of the stock-advisor scoring and allocation engine
(`src/main.py`, model version 3.3) against its natural-language
specification.  The Python core is a pure pipeline over a questionnaire
answer set; we embed it shallowly over `ℚ` (Python floats idealised as
exact rationals, `round(x, n)` idealised as round-half-to-even at the
n-th decimal) and `ℤ` for the ordinal tiers.
-/

namespace StockAdvisor

/-- Round half to even, the tie-breaking rule of Python `round`. -/
def rte (q : ℚ) : ℤ :=
  if q - ⌊q⌋ < 1/2 then ⌊q⌋
  else if 1/2 < q - ⌊q⌋ then ⌊q⌋ + 1
  else if ⌊q⌋ % 2 = 0 then ⌊q⌋ else ⌊q⌋ + 1

/-- Python `round(x, 2)` on idealised reals. -/
def round2 (q : ℚ) : ℚ := (rte (q * 100) : ℚ) / 100

/-- Python `round(x, 1)` on idealised reals. -/
def round1 (q : ℚ) : ℚ := (rte (q * 10) : ℚ) / 10

/-- Rationals that are an integer number of tenths. -/
def Tenth (q : ℚ) : Prop := ∃ k : ℤ, q * 10 = (k : ℚ)

/-! ## Data model

`AnswerSet` mirrors the questionnaire answer dictionary after validation
(every required key answered); `esg_importance` stays optional because it
is not in the required-question list and the source compares it against
literals (a missing value matches none of them). -/

structure AnswerSet where
  income : ℚ
  expenses : ℚ
  emergency_fund : ℤ
  income_stability : ℤ
  dependents : ℤ
  loan_types : List String
  emi_percentage : ℤ
  primary_goal : String
  timeframe : ℤ
  loss_avoidance : ℤ
  market_drop_reaction : ℤ
  experience : ℤ
  knowledge : ℤ
  liquidity_needs : ℤ
  age_group : ℤ
  esg_importance : Option ℤ

/-- Goal-dependent follow-up answers (`dependent_answers` dict); every
lookup in the source uses `.get` with a default, so each field is
optional. -/
structure DependentAnswers where
  capital_safety_importance : Option ℤ
  income_start_timing : Option ℤ
  goal_timeframe : Option ℤ
  years_to_retirement : Option ℤ
  wealth_horizon : Option ℤ
  not_sure_priority : Option ℤ

/-- Tier ranges offered by the questionnaire widgets (selectbox options
and number-input bounds in `src/main.py`). -/
def ValidAnswers (a : AnswerSet) : Prop :=
  0 ≤ a.income ∧ 0 ≤ a.expenses ∧
  1 ≤ a.emergency_fund ∧ a.emergency_fund ≤ 6 ∧
  1 ≤ a.income_stability ∧ a.income_stability ≤ 4 ∧
  0 ≤ a.dependents ∧ a.dependents ≤ 4 ∧
  1 ≤ a.emi_percentage ∧ a.emi_percentage ≤ 4 ∧
  1 ≤ a.timeframe ∧ a.timeframe ≤ 6 ∧
  1 ≤ a.loss_avoidance ∧ a.loss_avoidance ≤ 5 ∧
  1 ≤ a.market_drop_reaction ∧ a.market_drop_reaction ≤ 5 ∧
  1 ≤ a.experience ∧ a.experience ≤ 6 ∧
  1 ≤ a.knowledge ∧ a.knowledge ≤ 6 ∧
  1 ≤ a.liquidity_needs ∧ a.liquidity_needs ≤ 6 ∧
  1 ≤ a.age_group ∧ a.age_group ≤ 6

instance (a : AnswerSet) : Decidable (ValidAnswers a) := by
  unfold ValidAnswers; infer_instance

/-! ## Constants (`src/main.py` top of file) -/

def MINIMUM_INVESTMENT_THRESHOLD : ℚ := 500

/-- `AGE_EQUITY_MAP.get(age, 65)`. -/
def ageEquityMap (t : ℤ) : ℚ :=
  if t = 1 then 85 else if t = 2 then 75 else if t = 3 then 65
  else if t = 4 then 55 else if t = 5 then 40 else if t = 6 then 30 else 65

/-- `TIMEFRAME_MAP.get(t, 6)`. -/
def timeframeMap (t : ℤ) : ℚ :=
  if t = 1 then 1 else if t = 2 then 3 else if t = 3 then 6
  else if t = 4 then 10 else if t = 5 then 15 else if t = 6 then 10 else 6

/-- The `WEIGHTS` table of the overall risk score. -/
structure WeightTable where
  financial_stability : ℚ
  debt_situation : ℚ
  risk_tolerance : ℚ
  investment_horizon : ℚ
  knowledge_experience : ℚ

def WEIGHTS : WeightTable :=
  { financial_stability := 0.25
    debt_situation := 0.15
    risk_tolerance := 0.25
    investment_horizon := 0.20
    knowledge_experience := 0.15 }

def weightSum (w : WeightTable) : ℚ :=
  w.financial_stability + w.debt_situation + w.risk_tolerance +
    w.investment_horizon + w.knowledge_experience

/-! ## RiskCalculator.map_to_score -/

/-- `map_to_score(value, min_val, max_val, reverse)`. -/
def mapToScore (value minV maxV : ℤ) (rev : Bool) : ℚ :=
  let v : ℤ := if rev then maxV - value + minV else value
  ((v : ℚ) - (minV : ℚ)) / ((maxV : ℚ) - (minV : ℚ)) * 100

/-! ## RiskCalculator.calculate_financial_score -/

structure FinancialData where
  financial_score : ℚ
  emergency_component : ℚ
  income_stability_component : ℚ
  dependents_adjustment : ℚ
  savings_component : ℚ
  disposable_income : ℚ
  savings_rate : ℚ
  monthly_income : ℚ
  monthly_expenses : ℚ
  emergency_months : ℚ
  income_stability : ℤ
  dependents_count : ℤ

/-- `emergency_months_map.get(score, 2)`. -/
def emergencyMonthsMap (t : ℤ) : ℚ :=
  if t = 1 then 0 else if t = 2 then 0.5 else if t = 3 then 2
  else if t = 4 then 5 else if t = 5 then 9.5 else if t = 6 then 15 else 2

/-- The dependents adjustment `max(0, 100 - dependents_count * 15)`. -/
def dependentsAdjustment (dependents_count : ℤ) : ℚ :=
  max 0 (100 - (dependents_count : ℚ) * 15)

/-- The savings-rate component: 0 on zero income, a capped linear ramp of
the savings rate otherwise. -/
def savingsRateComponent (monthly_income monthly_expenses : ℚ) : ℚ :=
  if 0 < monthly_income then
    let savings_rate := (monthly_income - monthly_expenses) / monthly_income
    if savings_rate ≤ 0 then 0
    else if 0.3 ≤ savings_rate then 100
    else savings_rate / 0.3 * 100
  else 0

def calculateFinancialScore (a : AnswerSet) : FinancialData :=
  let monthly_income := a.income
  let monthly_expenses := a.expenses
  let emergency_score := a.emergency_fund
  let income_stability_score := a.income_stability
  let dependents_count := a.dependents
  let emergency_months := emergencyMonthsMap emergency_score
  let emergency_component := mapToScore emergency_score 1 6 false
  let income_stability_component := mapToScore income_stability_score 1 6 true
  let dependents_adjustment : ℚ := dependentsAdjustment dependents_count
  let savings_rate_component : ℚ := savingsRateComponent monthly_income monthly_expenses
  let financial_score :=
    0.35 * emergency_component + 0.25 * income_stability_component +
      0.20 * dependents_adjustment + 0.20 * savings_rate_component
  let disposable_income : ℚ := max 0 (monthly_income - monthly_expenses)
  let savings_rate_pct : ℚ :=
    if 0 < monthly_income then disposable_income / monthly_income * 100 else 0
  { financial_score := round2 financial_score
    emergency_component := round2 emergency_component
    income_stability_component := round2 income_stability_component
    dependents_adjustment := round2 dependents_adjustment
    savings_component := round2 savings_rate_component
    disposable_income := round2 disposable_income
    savings_rate := round2 savings_rate_pct
    monthly_income := monthly_income
    monthly_expenses := monthly_expenses
    emergency_months := emergency_months
    income_stability := income_stability_score
    dependents_count := dependents_count }

/-! ## RiskCalculator.calculate_debt_score -/

structure DebtData where
  debt_score : ℚ
  loan_type_score : ℚ
  emi_score : ℚ
  good_debt_count : ℕ
  bad_debt_count : ℕ
  neutral_debt_count : ℕ
  has_debt : Bool
  emi_percentage_category : ℤ

def goodDebtTypes : List String := ["home_loan", "education_loan", "business_loan"]
def badDebtTypes : List String := ["personal_loan", "credit_card", "consumer_loan", "payday_loan"]
def neutralDebtTypes : List String := ["gold_loan", "property_loan"]

def goodDebtCount (loan_types : List String) : ℕ :=
  (loan_types.filter (fun lt => goodDebtTypes.contains lt)).length

def badDebtCount (loan_types : List String) : ℕ :=
  (loan_types.filter (fun lt => badDebtTypes.contains lt)).length

def neutralDebtCount (loan_types : List String) : ℕ :=
  (loan_types.filter (fun lt => neutralDebtTypes.contains lt)).length

/-- Loan-type score: 100 with no loans, otherwise a clamped base of 50
adjusted by the good/bad/neutral counts. -/
def loanTypeScore (loan_types : List String) : ℚ :=
  if loan_types.isEmpty then 100
  else
    max 0 (min 100
      (50 + (goodDebtCount loan_types : ℚ) * 20 - (badDebtCount loan_types : ℚ) * 30 +
        (neutralDebtCount loan_types : ℚ) * 5))

/-- `emi_percentage_map.get(score, 50)`. -/
def emiPercentageMap (e : ℤ) : ℚ :=
  if e = 1 then 100 else if e = 2 then 75 else if e = 3 then 50
  else if e = 4 then 25 else 50

def calculateDebtScore (a : AnswerSet) : DebtData :=
  let loan_types := a.loan_types
  let good_debt_count := goodDebtCount loan_types
  let bad_debt_count := badDebtCount loan_types
  let neutral_debt_count := neutralDebtCount loan_types
  let loan_type_score : ℚ := loanTypeScore loan_types
  let emi_score := emiPercentageMap a.emi_percentage
  let debt_score : ℚ :=
    if loan_types.isEmpty then 100 else 0.60 * loan_type_score + 0.40 * emi_score
  { debt_score := round2 debt_score
    loan_type_score := round2 loan_type_score
    emi_score := round2 emi_score
    good_debt_count := good_debt_count
    bad_debt_count := bad_debt_count
    neutral_debt_count := neutral_debt_count
    has_debt := !loan_types.isEmpty
    emi_percentage_category := a.emi_percentage }

/-! ## RiskCalculator.calculate_risk_tolerance -/

structure RiskToleranceData where
  risk_tolerance_score : ℚ
  loss_avoidance : ℚ
  emotional_reaction : ℚ
  esg_adjustment : ℚ
  max_tolerable_loss_pct : ℚ
  esg_importance : Option ℤ

def calculateRiskTolerance (a : AnswerSet) : RiskToleranceData :=
  let loss_avoidance := mapToScore a.loss_avoidance 1 6 true
  let emotional_reaction := mapToScore a.market_drop_reaction 1 6 false
  let esg_importance := a.esg_importance
  let esg_adjustment : ℚ :=
    if esg_importance = some 4 then -20
    else if esg_importance = some 3 then -10
    else if esg_importance = some 2 then -5
    else 0
  let rts0 := (0.60 * loss_avoidance + 0.40 * emotional_reaction) + esg_adjustment
  let risk_tolerance_score := max 0 (min 100 rts0)
  let max_loss : ℚ :=
    if 80 ≤ loss_avoidance then 10 else if 60 ≤ loss_avoidance then 20
    else if 40 ≤ loss_avoidance then 30 else 40
  { risk_tolerance_score := round2 risk_tolerance_score
    loss_avoidance := round2 loss_avoidance
    emotional_reaction := round2 emotional_reaction
    esg_adjustment := esg_adjustment
    max_tolerable_loss_pct := max_loss
    esg_importance := esg_importance }

/-! ## RiskCalculator.calculate_horizon_score -/

structure HorizonData where
  horizon_score : ℚ
  timeframe_component : ℚ
  liquidity_component : ℚ
  goal_adjustment : ℚ
  goal_details : String
  timeframe_years : ℚ
  primary_goal : String

def goalAdjustmentPair (goal : String) (d : DependentAnswers) : ℚ × String :=
  if goal = "capital_preservation" then
    let safety_importance := d.capital_safety_importance.getD 2
    if safety_importance = 1 then (-20, "Capital preservation focus")
    else if safety_importance = 2 then (0, "Balanced capital preservation")
    else (10, "Risk-tolerant capital preservation")
  else if goal = "regular_income" then
    let income_start := d.income_start_timing.getD 2
    if income_start = 1 then (-30, "Immediate income need")
    else if income_start = 2 then (-10, "Near-term income need")
    else (10, "Long-term income planning")
  else if goal = "major_life_goal" then
    let goal_timeframe := d.goal_timeframe.getD 3
    if goal_timeframe = 1 then (-30, "Short-term major goal")
    else if goal_timeframe = 2 then (-10, "Medium-term major goal")
    else if goal_timeframe = 3 then (10, "Long-term major goal")
    else (20, "Very long-term major goal")
  else if goal = "retirement" then
    let years_to_retirement := d.years_to_retirement.getD 2
    if years_to_retirement = 1 then (-20, "Near retirement")
    else if years_to_retirement = 2 then (10, "Mid-career retirement planning")
    else (30, "Early career retirement planning")
  else if goal = "wealth_creation" then
    let investment_horizon := d.wealth_horizon.getD 2
    if investment_horizon = 1 then (-20, "Short-term wealth creation")
    else if investment_horizon = 2 then (10, "Medium-term wealth creation")
    else (30, "Long-term wealth creation")
  else
    let priority := d.not_sure_priority.getD 4
    if priority = 1 then (-20, "Safety priority")
    else if priority = 2 then (-10, "Income priority")
    else if priority = 3 then (20, "Growth priority")
    else (0, "Undecided")

def calculateHorizonScore (a : AnswerSet) (d : DependentAnswers) : HorizonData :=
  let timeframe_score := a.timeframe
  let liquidity_score := a.liquidity_needs
  let timeframe_years := timeframeMap timeframe_score
  let gp := goalAdjustmentPair a.primary_goal d
  let goal_adjustment := gp.1
  let timeframe_component := mapToScore timeframe_score 1 6 false
  let liquidity_component := mapToScore liquidity_score 1 6 true
  let adjusted_timeframe := max 0 (min 100 (timeframe_component + goal_adjustment))
  let horizon_score := 0.60 * adjusted_timeframe + 0.40 * liquidity_component
  { horizon_score := round2 horizon_score
    timeframe_component := round2 timeframe_component
    liquidity_component := round2 liquidity_component
    goal_adjustment := goal_adjustment
    goal_details := gp.2
    timeframe_years := timeframe_years
    primary_goal := a.primary_goal }

/-! ## RiskCalculator.calculate_knowledge_score -/

structure KnowledgeData where
  knowledge_score : ℚ
  experience_component : ℚ
  knowledge_component : ℚ

def calculateKnowledgeScore (a : AnswerSet) : KnowledgeData :=
  let experience_component := mapToScore a.experience 1 6 false
  let knowledge_component := mapToScore a.knowledge 1 6 false
  let knowledge_score_value := 0.60 * experience_component + 0.40 * knowledge_component
  { knowledge_score := round2 knowledge_score_value
    experience_component := round2 experience_component
    knowledge_component := round2 knowledge_component }

/-! ## RiskCalculator.calculate_overall_risk_score -/

structure RiskData where
  overall_risk_score : ℚ
  financial_data : FinancialData
  debt_data : DebtData
  risk_tolerance_data : RiskToleranceData
  horizon_data : HorizonData
  knowledge_data : KnowledgeData

def calculateOverallRiskScore (a : AnswerSet) (d : DependentAnswers) : RiskData :=
  let financial_data := calculateFinancialScore a
  let debt_data := calculateDebtScore a
  let risk_tolerance_data := calculateRiskTolerance a
  let horizon_data := calculateHorizonScore a d
  let knowledge_data := calculateKnowledgeScore a
  let overall_score :=
    WEIGHTS.financial_stability * financial_data.financial_score +
    WEIGHTS.debt_situation * debt_data.debt_score +
    WEIGHTS.risk_tolerance * risk_tolerance_data.risk_tolerance_score +
    WEIGHTS.investment_horizon * horizon_data.horizon_score +
    WEIGHTS.knowledge_experience * knowledge_data.knowledge_score
  { overall_risk_score := round2 overall_score
    financial_data := financial_data
    debt_data := debt_data
    risk_tolerance_data := risk_tolerance_data
    horizon_data := horizon_data
    knowledge_data := knowledge_data }

/-! ## RiskCalculator.get_risk_category -/

inductive RiskCategory
  | veryLow
  | low
  | medium
  | high
  | veryHigh
deriving DecidableEq

def categoryName : RiskCategory → String
  | .veryLow => "VERY LOW RISK"
  | .low => "LOW RISK"
  | .medium => "MEDIUM RISK"
  | .high => "HIGH RISK"
  | .veryHigh => "VERY HIGH RISK"

/-- The fixed ordinal index 1-5 of a risk category. -/
def categoryIndex : RiskCategory → ℤ
  | .veryLow => 1
  | .low => 2
  | .medium => 3
  | .high => 4
  | .veryHigh => 5

def getRiskCategory (overall_risk_score : ℚ) : RiskCategory :=
  if overall_risk_score ≤ 20 then .veryLow
  else if overall_risk_score ≤ 40 then .low
  else if overall_risk_score ≤ 60 then .medium
  else if overall_risk_score ≤ 80 then .high
  else .veryHigh

/-! ## RiskCalculator.check_investment_suitability -/

inductive Suitability
  | notSuitable
  | cautionAdvised
  | suitable
deriving DecidableEq

structure SuitabilityData where
  suitability : Suitability
  blocking_issues : List String
  warnings : List String
  recommendation : String

/-- `check_investment_suitability`; the two warning messages that embed a
formatted number in the source keep only their fixed text here. -/
def checkInvestmentSuitability (a : AnswerSet) (fd : FinancialData) : SuitabilityData :=
  let emergency_months := fd.emergency_months
  let income_stability := a.income_stability
  let debt_data := calculateDebtScore a
  let liquidity_score := a.liquidity_needs
  let blocking_issues : List String :=
    (if emergency_months = 0 then ["No emergency savings"] else []) ++
    (if income_stability = 4 then ["No current income"] else []) ++
    (if debt_data.emi_percentage_category = 4 then ["Debt EMI exceeds 60% of income"] else []) ++
    (if liquidity_score ≤ 1 then ["Very likely to need money within 1 year"] else [])
  let warnings : List String :=
    (if emergency_months < 3 then ["Emergency fund below recommended 3-6 months"] else []) ++
    (if 3 ≤ income_stability then ["Income stability concerns"] else []) ++
    (if 0 < debt_data.bad_debt_count then ["Has bad debt"] else []) ++
    (if liquidity_score ≤ 2 then ["May need money within 1-2 years"] else [])
  if !blocking_issues.isEmpty then
    { suitability := .notSuitable
      blocking_issues := blocking_issues
      warnings := warnings
      recommendation := "Focus on building emergency fund, stabilizing income, and reducing high debt before investing" }
  else if !warnings.isEmpty then
    { suitability := .cautionAdvised
      blocking_issues := blocking_issues
      warnings := warnings
      recommendation := "Consider addressing warnings before significant stock investment" }
  else
    { suitability := .suitable
      blocking_issues := blocking_issues
      warnings := warnings
      recommendation := "Proceed with recommended investment plan" }

/-! ## RiskCalculator.calculate_safe_investment -/

/-- Fields shared by both return dictionaries of
`calculate_safe_investment` (the purely diagnostic extras of the
non-blocking dictionary are omitted). -/
structure InvestmentData where
  safe_monthly_investment : ℚ
  annual_investment : ℚ
  monthly_ef_saving : ℚ
  monthly_debt_payment : ℚ
  ef_gap_amount : ℚ
  investment_percentage : ℚ
  investment_confidence : String
  suitability : SuitabilityData
  recommendation_priority : String

/-- The early-return dictionary when suitability is NOT SUITABLE. -/
def blockedInvestmentPlan (fd : FinancialData) (su : SuitabilityData) : InvestmentData :=
  { safe_monthly_investment := 0
    annual_investment := 0
    monthly_ef_saving := fd.disposable_income * 0.5
    monthly_debt_payment := fd.disposable_income * 0.3
    ef_gap_amount := max 0 (6 - fd.emergency_months) * fd.monthly_expenses
    investment_percentage := 0
    investment_confidence := "Very Low"
    suitability := su
    recommendation_priority := "EMERGENCY_FUND_DEBT" }

/-- The full sizing computation of `calculate_safe_investment` (the code
after the suitability early return); `int(ef_gap_months * 3)` truncates a
non-negative number, i.e. takes the floor. -/
def sizingComputation (a : AnswerSet) (fd : FinancialData) (rd : RiskData)
    (su : SuitabilityData) : InvestmentData :=
  let monthly_expenses := fd.monthly_expenses
  let disposable_income := fd.disposable_income
  let financial_score := fd.financial_score
  let emergency_months := fd.emergency_months
  let income_stability := a.income_stability
  let dependents_count := fd.dependents_count
  let target_emergency_months : ℚ := if income_stability ≤ 2 then 6 else 9
  let ef_gap_months : ℚ := max 0 (target_emergency_months - emergency_months)
  let ef_gap_amount := ef_gap_months * monthly_expenses
  let debt_data := calculateDebtScore a
  let debt_priority_amount : ℚ :=
    if debt_data.has_debt then
      disposable_income *
        (if 3 ≤ debt_data.emi_percentage_category then 0.20
         else if 0 < debt_data.bad_debt_count then 0.15 else 0.10)
    else 0
  let dependents_multiplier : ℚ := max 0.5 (1.0 - (dependents_count : ℚ) * 0.1)
  let stability_multiplier : ℚ :=
    if income_stability = 1 then 1.0 else if income_stability = 2 then 0.8
    else if income_stability = 3 then 0.6 else 0.0
  let fh_multiplier : ℚ :=
    if financial_score < 40 then 0.0 else if financial_score < 60 then 0.15
    else if financial_score < 80 then 0.25 else 0.35
  let risk_tolerance := rd.risk_tolerance_data.risk_tolerance_score
  let risk_multiplier := risk_tolerance / 100
  let base_percentage := fh_multiplier * (0.5 + 0.5 * risk_multiplier)
  let investment_percentage := base_percentage * stability_multiplier * dependents_multiplier
  let available_after_priorities : ℚ := max 0 (disposable_income - debt_priority_amount)
  let efPair : ℚ × ℚ :=
    if 0 < ef_gap_amount ∧ 0 < disposable_income then
      let build_timeline : ℤ := min 18 (max 6 ⌊ef_gap_months * 3⌋)
      let s := min (available_after_priorities * 0.5) (ef_gap_amount / (build_timeline : ℚ))
      (s, max 0 (available_after_priorities - s))
    else (0, available_after_priorities)
  let monthly_ef_saving := efPair.1
  let available_for_investment := efPair.2
  let safe0 : ℚ :=
    min (available_for_investment * investment_percentage)
      (available_for_investment * 0.3)
  let safe_monthly_investment :=
    if safe0 < MINIMUM_INVESTMENT_THRESHOLD then 0 else safe0
  let confidence : String :=
    if safe_monthly_investment = 0 then "Very Low"
    else if safe_monthly_investment < disposable_income * 0.05 then "Low"
    else if safe_monthly_investment < disposable_income * 0.10 then "Medium"
    else if safe_monthly_investment < disposable_income * 0.20 then "High"
    else "Very High"
  let priority : String :=
    if 0 < ef_gap_amount ∧ emergency_months < 3 then "EMERGENCY_FUND"
    else if 0 < debt_priority_amount then "DEBT_REDUCTION"
    else "INVESTMENT"
  { safe_monthly_investment := round2 safe_monthly_investment
    annual_investment := round2 (safe_monthly_investment * 12)
    monthly_ef_saving := round2 monthly_ef_saving
    monthly_debt_payment := round2 debt_priority_amount
    ef_gap_amount := round2 ef_gap_amount
    investment_percentage := round2 (investment_percentage * 100)
    investment_confidence := confidence
    suitability := su
    recommendation_priority := priority }

def calculateSafeInvestment (a : AnswerSet) (fd : FinancialData) (rd : RiskData) :
    InvestmentData :=
  let su := checkInvestmentSuitability a fd
  if su.suitability = .notSuitable then blockedInvestmentPlan fd su
  else sizingComputation a fd rd su

/-! ## RiskCalculator.determine_portfolio_allocation -/

structure Allocation where
  large_cap : ℚ
  mid_cap : ℚ
  small_cap : ℚ
  growth : ℚ
  inflation_protection : ℚ
  fixed_income : ℚ

inductive InflationPref
  | growth
  | balanced
  | protection
deriving DecidableEq

def allocSum (A : Allocation) : ℚ :=
  A.large_cap + A.mid_cap + A.small_cap + A.growth +
    A.inflation_protection + A.fixed_income

/-- Apply a function to every bucket (dict comprehension in the source). -/
def mapAlloc (f : ℚ → ℚ) (A : Allocation) : Allocation :=
  { large_cap := f A.large_cap
    mid_cap := f A.mid_cap
    small_cap := f A.small_cap
    growth := f A.growth
    inflation_protection := f A.inflation_protection
    fixed_income := f A.fixed_income }

/-- The risk-bracket equity split (`e` = inflation-adjusted equity,
`p` = inflation-protection percentage). -/
def rawAllocation (overall_risk_score e p : ℚ) : Allocation :=
  if overall_risk_score ≤ 20 then
    ⟨e * 0.9, e * 0.1, 0, 0, p, 100 - e - p⟩
  else if overall_risk_score ≤ 40 then
    ⟨e * 0.7, e * 0.3, 0, 0, p, 100 - e - p⟩
  else if overall_risk_score ≤ 60 then
    ⟨e * 0.5, e * 0.3, e * 0.1, e * 0.1, p, 100 - e - p⟩
  else if overall_risk_score ≤ 80 then
    ⟨e * 0.3, e * 0.3, e * 0.2, e * 0.2, p, 100 - e - p⟩
  else
    ⟨e * 0.1, e * 0.25, e * 0.3, e * 0.35, p, 100 - e - p⟩

/-- Proportional rescale applied when the raw sum strays from 100. -/
def normalizeAllocation (A : Allocation) : Allocation :=
  let total := allocSum A
  if 0.01 < |total - 100| then mapAlloc (fun v => v / total * 100) A else A

inductive Bucket
  | largeCap
  | midCap
  | smallCap
  | growth
  | inflationProtection
  | fixedIncome
deriving DecidableEq

def getBucket (A : Allocation) : Bucket → ℚ
  | .largeCap => A.large_cap
  | .midCap => A.mid_cap
  | .smallCap => A.small_cap
  | .growth => A.growth
  | .inflationProtection => A.inflation_protection
  | .fixedIncome => A.fixed_income

def setBucket (A : Allocation) (b : Bucket) (v : ℚ) : Allocation :=
  match b with
  | .largeCap => { A with large_cap := v }
  | .midCap => { A with mid_cap := v }
  | .smallCap => { A with small_cap := v }
  | .growth => { A with growth := v }
  | .inflationProtection => { A with inflation_protection := v }
  | .fixedIncome => { A with fixed_income := v }

/-- `max(allocation, key=allocation.get)`: the first key (in insertion
order) attaining the maximal value. -/
def largestBucket (A : Allocation) : Bucket :=
  let m := max A.large_cap (max A.mid_cap (max A.small_cap
    (max A.growth (max A.inflation_protection A.fixed_income))))
  if A.large_cap = m then .largeCap
  else if A.mid_cap = m then .midCap
  else if A.small_cap = m then .smallCap
  else if A.growth = m then .growth
  else if A.inflation_protection = m then .inflationProtection
  else .fixedIncome

/-- Final correction: absorb the residual rounding drift into the largest
bucket so the percentages add up to exactly 100. -/
def fixRounding (A : Allocation) : Allocation :=
  let rounded_sum := allocSum A
  if 0 < |rounded_sum - 100| then
    let b := largestBucket A
    setBucket A b (round1 (getBucket A b + (100 - rounded_sum)))
  else A

def inflationAdjustmentFactor : InflationPref → ℚ
  | .growth => 1.0
  | .balanced => 0.8
  | .protection => 0.6

def determinePortfolioAllocation (overall_risk_score : ℚ) (a : AnswerSet)
    (inflation_preference : InflationPref) : Allocation :=
  let base_equity_pct := ageEquityMap a.age_group
  let risk_multiplier := overall_risk_score / 100
  let adjusted_equity_pct := base_equity_pct * (0.6 + 0.4 * risk_multiplier)
  let inflation_adjusted_equity := adjusted_equity_pct * inflationAdjustmentFactor inflation_preference
  let pe : ℚ × ℚ :=
    match inflation_preference with
    | .protection => (20, max 0 (inflation_adjusted_equity - 20))
    | .balanced => (10, max 0 (inflation_adjusted_equity - 10))
    | .growth => (0, inflation_adjusted_equity)
  fixRounding (mapAlloc round1
    (normalizeAllocation (rawAllocation overall_risk_score pe.2 pe.1)))

/-! ## validate_answers and calculate_results

`RawAnswers` mirrors the session answer dictionary before validation:
each required entry may still be unanswered (`None`). -/

structure RawAnswers where
  income : Option ℚ
  expenses : Option ℚ
  emergency_fund : Option ℤ
  income_stability : Option ℤ
  dependents : Option ℤ
  loan_types : Option (List String)
  emi_percentage : Option ℤ
  primary_goal : Option String
  timeframe : Option ℤ
  loss_avoidance : Option ℤ
  market_drop_reaction : Option ℤ
  experience : Option ℤ
  knowledge : Option ℤ
  liquidity_needs : Option ℤ
  age_group : Option ℤ
  esg_importance : Option ℤ

def requiredMissingMsg (q : String) : String :=
  "Required question \x27" ++ q ++ "\x27 not answered"

/-- `validate_answers`: walk the required-question list in order and fail
at the first missing answer; otherwise succeed with consistency warnings. -/
def validateAnswers (r : RawAnswers) : Bool × List String :=
  if r.income.isNone then (false, [requiredMissingMsg "income"])
  else if r.expenses.isNone then (false, [requiredMissingMsg "expenses"])
  else if r.emergency_fund.isNone then (false, [requiredMissingMsg "emergency_fund"])
  else if r.loan_types.isNone then (false, [requiredMissingMsg "loan_types"])
  else if r.emi_percentage.isNone then (false, [requiredMissingMsg "emi_percentage"])
  else if r.income_stability.isNone then (false, [requiredMissingMsg "income_stability"])
  else if r.dependents.isNone then (false, [requiredMissingMsg "dependents"])
  else if r.primary_goal.isNone then (false, [requiredMissingMsg "primary_goal"])
  else if r.timeframe.isNone then (false, [requiredMissingMsg "timeframe"])
  else if r.loss_avoidance.isNone then (false, [requiredMissingMsg "loss_avoidance"])
  else if r.market_drop_reaction.isNone then (false, [requiredMissingMsg "market_drop_reaction"])
  else if r.experience.isNone then (false, [requiredMissingMsg "experience"])
  else if r.knowledge.isNone then (false, [requiredMissingMsg "knowledge"])
  else if r.liquidity_needs.isNone then (false, [requiredMissingMsg "liquidity_needs"])
  else if r.age_group.isNone then (false, [requiredMissingMsg "age_group"])
  else
    let income := r.income.getD 0
    let expenses := r.expenses.getD 0
    let warnings : List String :=
      (if income * 0.95 < expenses then
        ["Your expenses seem very high relative to income."] else []) ++
      (if income < expenses then
        ["Critical Issue: Expenses exceed income."] else [])
    (true, warnings)

/-- A required answer is missing (the condition `validate_answers`
rejects). -/
def someRequiredMissing (r : RawAnswers) : Prop :=
  r.income.isNone ∨ r.expenses.isNone ∨ r.emergency_fund.isNone ∨
  r.loan_types.isNone ∨ r.emi_percentage.isNone ∨ r.income_stability.isNone ∨
  r.dependents.isNone ∨ r.primary_goal.isNone ∨ r.timeframe.isNone ∨
  r.loss_avoidance.isNone ∨ r.market_drop_reaction.isNone ∨
  r.experience.isNone ∨ r.knowledge.isNone ∨ r.liquidity_needs.isNone ∨
  r.age_group.isNone

instance (r : RawAnswers) : Decidable (someRequiredMissing r) := by
  unfold someRequiredMissing; infer_instance

/-- Some answered tier lies outside the range its questionnaire widget
offers (checked against the selectbox option lists of the source). -/
def tierOutOfRange (lo hi : ℤ) : Option ℤ → Bool
  | some v => decide (v < lo ∨ hi < v)
  | none => false

def someAnswerOutOfRange (r : RawAnswers) : Bool :=
  tierOutOfRange 1 6 r.emergency_fund || tierOutOfRange 1 4 r.income_stability ||
  tierOutOfRange 0 4 r.dependents || tierOutOfRange 1 4 r.emi_percentage ||
  tierOutOfRange 1 6 r.timeframe || tierOutOfRange 1 5 r.loss_avoidance ||
  tierOutOfRange 1 5 r.market_drop_reaction || tierOutOfRange 1 6 r.experience ||
  tierOutOfRange 1 6 r.knowledge || tierOutOfRange 1 6 r.liquidity_needs ||
  tierOutOfRange 1 6 r.age_group || tierOutOfRange 1 4 r.esg_importance

/-- Resolve the `.get` defaults the pipeline functions use on the answer
dictionary (a missing `primary_goal` takes the trailing else branch of
the goal dispatch, exactly as the value "not_sure" does). -/
def toAnswerSet (r : RawAnswers) : AnswerSet :=
  { income := r.income.getD 0
    expenses := r.expenses.getD 0
    emergency_fund := r.emergency_fund.getD 3
    income_stability := r.income_stability.getD 3
    dependents := r.dependents.getD 0
    loan_types := r.loan_types.getD []
    emi_percentage := r.emi_percentage.getD 1
    primary_goal := r.primary_goal.getD "not_sure"
    timeframe := r.timeframe.getD 3
    loss_avoidance := r.loss_avoidance.getD 3
    market_drop_reaction := r.market_drop_reaction.getD 3
    experience := r.experience.getD 2
    knowledge := r.knowledge.getD 2
    liquidity_needs := r.liquidity_needs.getD 4
    age_group := r.age_group.getD 4
    esg_importance := r.esg_importance }

/-- What `calculate_results` stores on success. -/
structure AssessmentCore where
  risk_data : RiskData
  financial_data : FinancialData
  debt_data : DebtData
  risk_category : RiskCategory

/-- `calculate_results`: refuse to evaluate when validation fails,
otherwise run the scoring pipeline. -/
def calculateResults (r : RawAnswers) (d : DependentAnswers) : Option AssessmentCore :=
  if (validateAnswers r).1 then
    let a := toAnswerSet r
    let risk_data := calculateOverallRiskScore a d
    some { risk_data := risk_data
           financial_data := risk_data.financial_data
           debt_data := risk_data.debt_data
           risk_category := getRiskCategory risk_data.overall_risk_score }
  else none

/-- The numeric outputs of one assessment, as assembled by
`calculate_results` plus `apply_inflation_preference`. -/
structure AssessmentResult where
  risk_data : RiskData
  risk_category : RiskCategory
  allocation : Allocation
  investment : InvestmentData

def evaluateAssessment (a : AnswerSet) (d : DependentAnswers)
    (pref : InflationPref) : AssessmentResult :=
  let rd := calculateOverallRiskScore a d
  { risk_data := rd
    risk_category := getRiskCategory rd.overall_risk_score
    allocation := determinePortfolioAllocation rd.overall_risk_score a pref
    investment := calculateSafeInvestment a rd.financial_data rd }

/-! ## Components spec-modelled from §4.1, §4.5 and §4.8

The repository holds three successive versions of the application; only
the v3 file is under `src/`.  The v1-v2 debt ratio, the Safety Override
Engine and the penalty-based Confidence Scorer appear in the spec but not
in the v3 source, so they are modelled from the spec text. -/

/-- Modelled from the spec: missing v1-v2 debt ratio of §4.1,
"debt_ratio = min(1, high_interest_debt / annual_income) (1 if
annual_income = 0)". -/
def debtRatioSpec (high_interest_debt annual_income : ℚ) : ℚ :=
  if annual_income = 0 then 1 else min 1 (high_interest_debt / annual_income)

inductive GoalPriority
  | critical
  | important
  | other
deriving DecidableEq

/-- Modelled from the spec: the inputs consulted by the §4.5 override
rules of the missing v1-v2 Safety Override Engine. -/
structure OverrideInput where
  emergency_tier : ℤ
  high_interest_debt : ℚ
  goal_priority : GoalPriority
  liquidity_need_high : Bool
  risk_behavior : ℤ
  horizon_tier : ℤ
  experience_tier : ℤ
  purpose : ℤ
  income : ℚ
  age_tier : ℤ

/-- Modelled from the spec: the fixed lookup tables the §4.5 rules
consult (age tier to reference age, category index to equity share,
category index to Small_Cap plus Growth share); the spec names them
without tabulating them, so they stay parameters. -/
structure OverrideTables where
  referenceAge : ℤ → ℚ
  indexEquity : ℤ → ℚ
  smallPlusGrowth : ℤ → ℚ

/-- Modelled from the spec: contradiction counter of §4.5 rule 4. -/
def contradictionCount (inp : OverrideInput) : ℕ :=
  (if 4 ≤ inp.risk_behavior ∧ inp.emergency_tier ≤ 2 then 1 else 0) +
  (if 4 ≤ inp.risk_behavior ∧ inp.horizon_tier ≤ 2 then 1 else 0) +
  (if 4 ≤ inp.risk_behavior ∧ inp.experience_tier ≤ 2 then 1 else 0) +
  (if inp.purpose = 5 ∧ inp.income < 50000 then 1 else 0)

/-- Modelled from the spec: §4.5 rule 1 (emergency fund / debt downgrade,
floored at 1). -/
def overrideRule1 (inp : OverrideInput) (i : ℤ) : ℤ :=
  if inp.emergency_tier < 3 ∨ 0 < inp.high_interest_debt then max 1 (i - 1) else i

/-- Modelled from the spec: §4.5 rule 2 (goal-priority downgrade). -/
def overrideRule2 (inp : OverrideInput) (i : ℤ) : ℤ :=
  match inp.goal_priority with
  | .critical => i - 2
  | .important => i - 1
  | .other => i

/-- Modelled from the spec: §4.5 rule 3 (high liquidity need caps at 3). -/
def overrideRule3 (inp : OverrideInput) (i : ℤ) : ℤ :=
  if inp.liquidity_need_high then min i 3 else i

/-- Modelled from the spec: §4.5 rule 4 (two or more contradictions
downgrade by one). -/
def overrideRule4 (inp : OverrideInput) (i : ℤ) : ℤ :=
  if 2 ≤ contradictionCount inp then i - 1 else i

/-- Modelled from the spec: §4.5 rule 5 (age-equity mismatch downgrade). -/
def overrideRule5 (T : OverrideTables) (inp : OverrideInput) (i : ℤ) : ℤ :=
  if (100 - T.referenceAge inp.age_tier) + 15 < T.indexEquity i then i - 1 else i

/-- Modelled from the spec: §4.5 rule 6 (concentration-limit downgrade
when the Small_Cap plus Growth share of the preview exceeds 45). -/
def overrideRule6 (T : OverrideTables) (i : ℤ) : ℤ :=
  if 45 < T.smallPlusGrowth i then i - 1 else i

/-- Modelled from the spec: §4.5 rule 7 (income floor caps at 3). -/
def overrideRule7 (inp : OverrideInput) (i : ℤ) : ℤ :=
  if inp.income < 25000 then min i 3 else i

/-- Modelled from the spec: §4.5 rule 8 (clamp to 1..5). -/
def overrideClamp (i : ℤ) : ℤ := max 1 (min 5 i)

/-- Modelled from the spec: the missing v1-v2 Safety Override Engine,
rules 1-8 of §4.5 applied in this exact sequence to the initial
category index. -/
def applyOverrides (T : OverrideTables) (inp : OverrideInput) (idx0 : ℤ) : ℤ :=
  overrideClamp (overrideRule7 inp (overrideRule6 T (overrideRule5 T inp
    (overrideRule4 inp (overrideRule3 inp (overrideRule2 inp
      (overrideRule1 inp idx0)))))))

structure ConfidenceScore where
  score : ℤ
  level : String
  penalties : List String

/-- Modelled from the spec: the missing Confidence Scorer of §4.8. -/
def confidenceScorer (health_score : ℚ) (override_log : List String)
    (contradictions : ℕ) (investment : ℚ) : ConfidenceScore :=
  let penalties : List String :=
    (if health_score < 50 then ["low health"] else []) ++
    (if 3 ≤ override_log.length then ["multiple overrides"] else []) ++
    (if 2 ≤ contradictions then ["contradictions"] else []) ++
    (if investment < 1000 then ["low investment"] else [])
  let score : ℤ := max 40 (90 - 10 * (penalties.length : ℤ))
  let level : String :=
    if 80 ≤ score then "HIGH" else if 60 ≤ score then "MEDIUM" else "LOW"
  { score := score, level := level, penalties := penalties }

/-! ## Shared concrete inputs for witnesses -/

/-- A representative fully answered questionnaire. -/
def aEx : AnswerSet :=
  { income := 50000, expenses := 30000, emergency_fund := 4, income_stability := 2,
    dependents := 1, loan_types := [], emi_percentage := 1,
    primary_goal := "wealth_creation", timeframe := 4, loss_avoidance := 3,
    market_drop_reaction := 3, experience := 3, knowledge := 3,
    liquidity_needs := 4, age_group := 3, esg_importance := some 1 }

/-- A valid answer set that trips the liquidity blocking condition. -/
def aBlock : AnswerSet := { aEx with liquidity_needs := 1 }

def dEx : DependentAnswers := ⟨none, none, none, none, none, none⟩

/-- An answer set with zero income (C6 witness input). -/
def aZero : AnswerSet := { aEx with income := 0, expenses := 20000 }

/-- Concrete override tables for the C2 witness. -/
def tEx : OverrideTables :=
  { referenceAge := fun _ => 40, indexEquity := fun _ => 60, smallPlusGrowth := fun _ => 30 }

/-- Concrete override inputs for the C2 witness. -/
def inpEx : OverrideInput :=
  { emergency_tier := 2, high_interest_debt := 0, goal_priority := .important,
    liquidity_need_high := false, risk_behavior := 4, horizon_tier := 3,
    experience_tier := 2, purpose := 5, income := 40000, age_tier := 3 }

/-- The blocking conditions of the v3 suitability gate, as the spec lists
them: zero emergency fund, no current income, EMI burden above 60%, money
needed within a year. -/
def blockingCondition (a : AnswerSet) (fd : FinancialData) : Prop :=
  fd.emergency_months = 0 ∨ a.income_stability = 4 ∨
    (calculateDebtScore a).emi_percentage_category = 4 ∨ a.liquidity_needs ≤ 1

instance (a : AnswerSet) (fd : FinancialData) : Decidable (blockingCondition a fd) := by
  unfold blockingCondition; infer_instance

/-- A fully answered raw dictionary whose `emergency_fund` answer 99 lies
outside the 1..6 range offered by its widget (C9 counterexample input). -/
def rOut : RawAnswers :=
  { income := some 50000, expenses := some 30000, emergency_fund := some 99,
    income_stability := some 2, dependents := some 1, loan_types := some [],
    emi_percentage := some 1, primary_goal := some "wealth_creation",
    timeframe := some 4, loss_avoidance := some 3, market_drop_reaction := some 3,
    experience := some 3, knowledge := some 3, liquidity_needs := some 4,
    age_group := some 3, esg_importance := some 1 }

/-- A raw dictionary with the income question unanswered (C9 witness
input). -/
def rMissing : RawAnswers := { rOut with income := none, emergency_fund := some 4 }

/-! ## Rounding lemmas -/

theorem rte_cases (q : ℚ) : rte q = ⌊q⌋ ∨ rte q = ⌊q⌋ + 1 := by
  unfold rte; split_ifs <;> simp

theorem floor_le_rte (q : ℚ) : ⌊q⌋ ≤ rte q := by
  rcases rte_cases q with h | h <;> omega

theorem rte_le_ceil (q : ℚ) : rte q ≤ ⌈q⌉ := by
  unfold rte
  split_ifs with h1 h2 h3
  · exact Int.floor_le_ceil q
  all_goals {
    first
    | exact Int.floor_le_ceil q
    | · have hf : (1:ℚ)/2 ≤ q - ⌊q⌋ := le_of_not_lt h1
        have hlt : (⌊q⌋ : ℚ) < q := by linarith
        have hlc : (⌊q⌋ : ℚ) < (⌈q⌉ : ℚ) := lt_of_lt_of_le hlt (Int.le_ceil q)
        have : ⌊q⌋ < ⌈q⌉ := by exact_mod_cast hlc
        omega
  }

theorem rte_intCast (n : ℤ) : rte (n : ℚ) = n := by
  unfold rte
  rw [Int.floor_intCast]
  norm_num

theorem rte_mono {x y : ℚ} (h : x ≤ y) : rte x ≤ rte y := by
  rcases lt_or_le ⌊x⌋ ⌊y⌋ with hf | hf
  · have h1 : rte x ≤ ⌊x⌋ + 1 := by rcases rte_cases x with h' | h' <;> omega
    have h2 : ⌊y⌋ ≤ rte y := floor_le_rte y
    omega
  · have hfe : ⌊x⌋ = ⌊y⌋ := le_antisymm (Int.floor_mono h) hf
    unfold rte
    rw [hfe]
    split_ifs <;> first | omega | linarith

theorem rte_nonneg {q : ℚ} (h : 0 ≤ q) : 0 ≤ rte q := by
  have := floor_le_rte q
  have h0 : (0:ℤ) ≤ ⌊q⌋ := by
    rw [Int.le_floor]; exact_mod_cast h
  omega

/-- An integer bound below survives `round2`. -/
theorem intCast_le_round2 {c : ℤ} {q : ℚ} (h : (c:ℚ) ≤ q) : (c:ℚ) ≤ round2 q := by
  unfold round2
  rw [le_div_iff₀ (by norm_num : (0:ℚ) < 100)]
  have h1 : (c * 100 : ℤ) ≤ ⌊q * 100⌋ := by
    rw [Int.le_floor]
    push_cast
    nlinarith
  have h2 : (c * 100 : ℤ) ≤ rte (q * 100) := le_trans h1 (floor_le_rte _)
  exact_mod_cast h2

/-- An integer bound above survives `round2`. -/
theorem round2_le_intCast {c : ℤ} {q : ℚ} (h : q ≤ (c:ℚ)) : round2 q ≤ (c:ℚ) := by
  unfold round2
  rw [div_le_iff₀ (by norm_num : (0:ℚ) < 100)]
  have h1 : ⌈q * 100⌉ ≤ (c * 100 : ℤ) := by
    rw [Int.ceil_le]
    push_cast
    nlinarith
  have h2 : rte (q * 100) ≤ (c * 100 : ℤ) := le_trans (rte_le_ceil _) h1
  exact_mod_cast h2

theorem round2_nonneg {q : ℚ} (h : 0 ≤ q) : 0 ≤ round2 q := by
  have := intCast_le_round2 (c := 0) (q := q) (by exact_mod_cast h)
  exact_mod_cast this

theorem round2_mono {x y : ℚ} (h : x ≤ y) : round2 x ≤ round2 y := by
  unfold round2
  have := rte_mono (x := x * 100) (y := y * 100) (by nlinarith)
  have hc : ((rte (x * 100) : ℚ)) ≤ (rte (y * 100) : ℚ) := by exact_mod_cast this
  linarith

theorem round2_zero : round2 0 = 0 := by
  unfold round2
  have : ((0:ℤ):ℚ) = (0:ℚ) := by norm_num
  rw [show (0:ℚ) * 100 = ((0:ℤ):ℚ) by norm_num, rte_intCast]
  norm_num

theorem tenth_round1 (q : ℚ) : Tenth (round1 q) := by
  refine ⟨rte (q * 10), ?_⟩
  unfold round1
  field_simp

theorem round1_tenth_fix {q : ℚ} (h : Tenth q) : round1 q = q := by
  obtain ⟨k, hk⟩ := h
  unfold round1
  rw [hk, rte_intCast]
  have h10 : q = (k : ℚ) / 10 := by
    field_simp at hk ⊢
    linarith
  rw [h10]

theorem tenth_add {a b : ℚ} (ha : Tenth a) (hb : Tenth b) : Tenth (a + b) := by
  obtain ⟨k, hk⟩ := ha
  obtain ⟨l, hl⟩ := hb
  exact ⟨k + l, by push_cast; linarith⟩

theorem tenth_sub {a b : ℚ} (ha : Tenth a) (hb : Tenth b) : Tenth (a - b) := by
  obtain ⟨k, hk⟩ := ha
  obtain ⟨l, hl⟩ := hb
  exact ⟨k - l, by push_cast; linarith⟩

theorem tenth_intCast (n : ℤ) : Tenth (n : ℚ) := ⟨n * 10, by push_cast; ring⟩

/-! ## Allocation-sum lemmas (claim C1) -/

theorem allocSum_setBucket (A : Allocation) (b : Bucket) (v : ℚ) :
    allocSum (setBucket A b v) = allocSum A - getBucket A b + v := by
  cases b <;> simp [setBucket, getBucket, allocSum] <;> ring

theorem tenth_hundred : Tenth (100 : ℚ) := ⟨1000, by norm_num⟩

theorem tenth_getBucket {A : Allocation} (h1 : Tenth A.large_cap)
    (h2 : Tenth A.mid_cap) (h3 : Tenth A.small_cap) (h4 : Tenth A.growth)
    (h5 : Tenth A.inflation_protection) (h6 : Tenth A.fixed_income) (b : Bucket) :
    Tenth (getBucket A b) := by
  cases b <;> simpa [getBucket]

/-- The rounding-correction step lands on exactly 100 whenever every
bucket is a whole number of tenths, which `round1` guarantees. -/
theorem allocSum_fixRounding_round1 (B : Allocation) :
    allocSum (fixRounding (mapAlloc round1 B)) = 100 := by
  have h1 : Tenth (mapAlloc round1 B).large_cap := tenth_round1 _
  have h2 : Tenth (mapAlloc round1 B).mid_cap := tenth_round1 _
  have h3 : Tenth (mapAlloc round1 B).small_cap := tenth_round1 _
  have h4 : Tenth (mapAlloc round1 B).growth := tenth_round1 _
  have h5 : Tenth (mapAlloc round1 B).inflation_protection := tenth_round1 _
  have h6 : Tenth (mapAlloc round1 B).fixed_income := tenth_round1 _
  have hsum : Tenth (allocSum (mapAlloc round1 B)) := by
    unfold allocSum
    exact tenth_add (tenth_add (tenth_add (tenth_add (tenth_add h1 h2) h3) h4) h5) h6
  unfold fixRounding
  by_cases hs : allocSum (mapAlloc round1 B) = 100
  · rw [if_neg (by rw [hs]; norm_num)]
    exact hs
  · rw [if_pos (by rw [abs_pos]; intro hc; exact hs (by linarith))]
    have hg : Tenth (getBucket (mapAlloc round1 B) (largestBucket (mapAlloc round1 B))) :=
      tenth_getBucket h1 h2 h3 h4 h5 h6 _
    have hv : Tenth (getBucket (mapAlloc round1 B) (largestBucket (mapAlloc round1 B)) +
        (100 - allocSum (mapAlloc round1 B))) :=
      tenth_add hg (tenth_sub tenth_hundred hsum)
    dsimp only
    rw [round1_tenth_fix hv, allocSum_setBucket]
    ring

/-- C1: for every valid answer set and every inflation preference, the
portfolio allocation returned by `determine_portfolio_allocation` (with
its final normalization and rounding-correction step on the largest
bucket) has bucket percentages summing to exactly 100. -/
theorem c1_allocation_sums_to_100 (a : AnswerSet) (d : DependentAnswers)
    (pref : InflationPref) (h : ValidAnswers a) :
    allocSum (determinePortfolioAllocation
      (calculateOverallRiskScore a d).overall_risk_score a pref) = 100 := by
  unfold determinePortfolioAllocation
  exact allocSum_fixRounding_round1 _

/-- C1 witness: the theorem evaluated at the shared concrete input. -/
theorem c1_witness :
    ValidAnswers aEx ∧
    allocSum (determinePortfolioAllocation
      (calculateOverallRiskScore aEx dEx).overall_risk_score aEx
      InflationPref.balanced) = 100 :=
  ⟨by decide, c1_allocation_sums_to_100 aEx dEx InflationPref.balanced (by decide)⟩

/-! ## Category bounds and override monotonicity (claim C2) -/

theorem categoryIndex_bounds (s : ℚ) :
    1 ≤ categoryIndex (getRiskCategory s) ∧ categoryIndex (getRiskCategory s) ≤ 5 := by
  unfold getRiskCategory
  split_ifs <;> simp [categoryIndex]

theorem overrideRule1_le (inp : OverrideInput) {i : ℤ} (h : 1 ≤ i) :
    overrideRule1 inp i ≤ i := by
  unfold overrideRule1; split_ifs <;> omega

theorem overrideRule2_le (inp : OverrideInput) (i : ℤ) : overrideRule2 inp i ≤ i := by
  unfold overrideRule2; rcases inp.goal_priority <;> dsimp only <;> omega

theorem overrideRule3_le (inp : OverrideInput) (i : ℤ) : overrideRule3 inp i ≤ i := by
  unfold overrideRule3; split_ifs <;> omega

theorem overrideRule4_le (inp : OverrideInput) (i : ℤ) : overrideRule4 inp i ≤ i := by
  unfold overrideRule4; split_ifs <;> omega

theorem overrideRule5_le (T : OverrideTables) (inp : OverrideInput) (i : ℤ) :
    overrideRule5 T inp i ≤ i := by
  unfold overrideRule5; split_ifs <;> omega

theorem overrideRule6_le (T : OverrideTables) (i : ℤ) : overrideRule6 T i ≤ i := by
  unfold overrideRule6; split_ifs <;> omega

theorem overrideRule7_le (inp : OverrideInput) (i : ℤ) : overrideRule7 inp i ≤ i := by
  unfold overrideRule7; split_ifs <;> omega

theorem applyOverrides_bounds (T : OverrideTables) (inp : OverrideInput)
    {idx0 : ℤ} (h1 : 1 ≤ idx0) (h5 : idx0 ≤ 5) :
    1 ≤ applyOverrides T inp idx0 ∧ applyOverrides T inp idx0 ≤ 5 ∧
      applyOverrides T inp idx0 ≤ idx0 := by
  unfold applyOverrides overrideClamp
  have s1 := overrideRule1_le inp h1
  have s2 := overrideRule2_le inp (overrideRule1 inp idx0)
  have s3 := overrideRule3_le inp (overrideRule2 inp (overrideRule1 inp idx0))
  have s4 := overrideRule4_le inp
    (overrideRule3 inp (overrideRule2 inp (overrideRule1 inp idx0)))
  have s5 := overrideRule5_le T inp
    (overrideRule4 inp (overrideRule3 inp (overrideRule2 inp (overrideRule1 inp idx0))))
  have s6 := overrideRule6_le T
    (overrideRule5 T inp (overrideRule4 inp (overrideRule3 inp
      (overrideRule2 inp (overrideRule1 inp idx0)))))
  have s7 := overrideRule7_le inp
    (overrideRule6 T (overrideRule5 T inp (overrideRule4 inp (overrideRule3 inp
      (overrideRule2 inp (overrideRule1 inp idx0))))))
  omega

/-- C2: for every valid answer set the final risk-category index produced
by `get_risk_category` lies in 1..5, and the safety-override stage (the
§4.5 rule sequence, modelled from the spec because the v3 source
classifies once and applies no overrides) never yields an index above the
initial threshold classification: it only downgrades or caps, staying
within 1..5, whatever its lookup tables hold. -/
theorem c2_category_bounds_overrides_downgrade (a : AnswerSet)
    (d : DependentAnswers) (T : OverrideTables) (inp : OverrideInput)
    (h : ValidAnswers a) :
    1 ≤ categoryIndex (getRiskCategory (calculateOverallRiskScore a d).overall_risk_score) ∧
    categoryIndex (getRiskCategory (calculateOverallRiskScore a d).overall_risk_score) ≤ 5 ∧
    1 ≤ applyOverrides T inp
      (categoryIndex (getRiskCategory (calculateOverallRiskScore a d).overall_risk_score)) ∧
    applyOverrides T inp
      (categoryIndex (getRiskCategory (calculateOverallRiskScore a d).overall_risk_score)) ≤ 5 ∧
    applyOverrides T inp
      (categoryIndex (getRiskCategory (calculateOverallRiskScore a d).overall_risk_score)) ≤
      categoryIndex (getRiskCategory (calculateOverallRiskScore a d).overall_risk_score) := by
  obtain ⟨hb1, hb5⟩ := categoryIndex_bounds (calculateOverallRiskScore a d).overall_risk_score
  obtain ⟨ho1, ho5, hole⟩ := applyOverrides_bounds T inp hb1 hb5
  exact ⟨hb1, hb5, ho1, ho5, hole⟩

/-- C2 witness: the theorem evaluated at the shared concrete input. -/
theorem c2_witness :
    ValidAnswers aEx ∧
    1 ≤ applyOverrides tEx inpEx
      (categoryIndex (getRiskCategory (calculateOverallRiskScore aEx dEx).overall_risk_score)) ∧
    applyOverrides tEx inpEx
      (categoryIndex (getRiskCategory (calculateOverallRiskScore aEx dEx).overall_risk_score)) ≤
      categoryIndex (getRiskCategory (calculateOverallRiskScore aEx dEx).overall_risk_score) :=
  ⟨by decide,
   (c2_category_bounds_overrides_downgrade aEx dEx tEx inpEx (by decide)).2.2.1,
   (c2_category_bounds_overrides_downgrade aEx dEx tEx inpEx (by decide)).2.2.2.2⟩

/-! ## Investment minimum threshold (claim C3) -/

theorem round2_after_threshold (q : ℚ) :
    0 ≤ round2 (if q < MINIMUM_INVESTMENT_THRESHOLD then 0 else q) ∧
    (round2 (if q < MINIMUM_INVESTMENT_THRESHOLD then 0 else q) = 0 ∨
      500 ≤ round2 (if q < MINIMUM_INVESTMENT_THRESHOLD then 0 else q)) := by
  split_ifs with hq
  · rw [round2_zero]
    exact ⟨le_refl 0, Or.inl rfl⟩
  · have h500 : (500 : ℚ) ≤ q := by
      unfold MINIMUM_INVESTMENT_THRESHOLD at hq
      linarith [not_lt.mp hq]
    have hr : ((500 : ℤ) : ℚ) ≤ round2 q := intCast_le_round2 (by exact_mod_cast h500)
    have hr500 : (500 : ℚ) ≤ round2 q := by exact_mod_cast hr
    exact ⟨by linarith, Or.inr hr500⟩

/-- C3: for every valid answer set, the safe monthly investment computed
by `calculate_safe_investment` (consuming the pipeline financial and
risk data) is non-negative and either exactly 0 or at least the minimum
threshold of 500. -/
theorem c3_safe_investment_zero_or_min (a : AnswerSet) (d : DependentAnswers)
    (h : ValidAnswers a) :
    0 ≤ (calculateSafeInvestment a (calculateOverallRiskScore a d).financial_data
          (calculateOverallRiskScore a d)).safe_monthly_investment ∧
    ((calculateSafeInvestment a (calculateOverallRiskScore a d).financial_data
          (calculateOverallRiskScore a d)).safe_monthly_investment = 0 ∨
      500 ≤ (calculateSafeInvestment a (calculateOverallRiskScore a d).financial_data
          (calculateOverallRiskScore a d)).safe_monthly_investment) := by
  unfold calculateSafeInvestment
  by_cases hsu : (checkInvestmentSuitability a
      (calculateOverallRiskScore a d).financial_data).suitability = Suitability.notSuitable
  · rw [if_pos hsu]
    exact ⟨le_refl 0, Or.inl rfl⟩
  · rw [if_neg hsu]
    exact round2_after_threshold _

/-- C3 witness: the theorem evaluated at the shared concrete input. -/
theorem c3_witness :
    ValidAnswers aEx ∧
    ((calculateSafeInvestment aEx (calculateOverallRiskScore aEx dEx).financial_data
        (calculateOverallRiskScore aEx dEx)).safe_monthly_investment = 0 ∨
      500 ≤ (calculateSafeInvestment aEx (calculateOverallRiskScore aEx dEx).financial_data
        (calculateOverallRiskScore aEx dEx)).safe_monthly_investment) :=
  ⟨by decide, (c3_safe_investment_zero_or_min aEx dEx (by decide)).2⟩

/-! ## Suitability gate (claim C4) -/

theorem suitability_notSuitable_iff (a : AnswerSet) (fd : FinancialData) :
    (checkInvestmentSuitability a fd).suitability = Suitability.notSuitable ↔
      blockingCondition a fd := by
  unfold checkInvestmentSuitability blockingCondition
  by_cases h1 : fd.emergency_months = 0 <;>
  by_cases h2 : a.income_stability = 4 <;>
  by_cases h3 : (calculateDebtScore a).emi_percentage_category = 4 <;>
  by_cases h4 : a.liquidity_needs ≤ 1 <;>
  simp only [h1, h2, h3, h4, if_true, if_false, if_pos, if_neg, not_false_iff,
    List.append_nil, List.nil_append, List.cons_append, List.isEmpty_cons,
    List.isEmpty_nil, Bool.not_false, Bool.not_true, if_true] <;>
  simp_all <;>
  split_ifs <;>
  simp_all

/-- C4: for every valid answer set, any blocking suitability condition
(zero emergency fund, no current income, EMI above 60% of income, money
needed within a year) makes `check_investment_suitability` return NOT
SUITABLE and `calculate_safe_investment` return a zero monthly investment
that redirects disposable income half to the emergency fund and 30% to
debt; with no blocking condition the verdict is not NOT SUITABLE and the
full sizing computation runs. -/
theorem c4_blocking_gate (a : AnswerSet) (d : DependentAnswers) (h : ValidAnswers a) :
    (blockingCondition a (calculateOverallRiskScore a d).financial_data →
      (checkInvestmentSuitability a (calculateOverallRiskScore a d).financial_data).suitability
          = Suitability.notSuitable ∧
      (calculateSafeInvestment a (calculateOverallRiskScore a d).financial_data
          (calculateOverallRiskScore a d)).safe_monthly_investment = 0 ∧
      (calculateSafeInvestment a (calculateOverallRiskScore a d).financial_data
          (calculateOverallRiskScore a d)).monthly_ef_saving =
        (calculateOverallRiskScore a d).financial_data.disposable_income * 0.5 ∧
      (calculateSafeInvestment a (calculateOverallRiskScore a d).financial_data
          (calculateOverallRiskScore a d)).monthly_debt_payment =
        (calculateOverallRiskScore a d).financial_data.disposable_income * 0.3) ∧
    (¬ blockingCondition a (calculateOverallRiskScore a d).financial_data →
      (checkInvestmentSuitability a (calculateOverallRiskScore a d).financial_data).suitability
          ≠ Suitability.notSuitable ∧
      calculateSafeInvestment a (calculateOverallRiskScore a d).financial_data
          (calculateOverallRiskScore a d) =
        sizingComputation a (calculateOverallRiskScore a d).financial_data
          (calculateOverallRiskScore a d)
          (checkInvestmentSuitability a (calculateOverallRiskScore a d).financial_data)) := by
  constructor
  · intro hb
    have hsu := (suitability_notSuitable_iff a
      (calculateOverallRiskScore a d).financial_data).mpr hb
    refine ⟨hsu, ?_, ?_, ?_⟩ <;>
      · unfold calculateSafeInvestment
        rw [if_pos hsu]
        rfl
  · intro hnb
    have hsu : (checkInvestmentSuitability a
        (calculateOverallRiskScore a d).financial_data).suitability ≠
        Suitability.notSuitable := fun hc =>
      hnb ((suitability_notSuitable_iff a (calculateOverallRiskScore a d).financial_data).mp hc)
    refine ⟨hsu, ?_⟩
    unfold calculateSafeInvestment
    rw [if_neg hsu]

/-- C4 witness: a blocking input gets NOT SUITABLE with zero investment,
a non-blocking one does not. -/
theorem c4_witness :
    ValidAnswers aBlock ∧
    (checkInvestmentSuitability aBlock
        (calculateOverallRiskScore aBlock dEx).financial_data).suitability
      = Suitability.notSuitable ∧
    (calculateSafeInvestment aBlock (calculateOverallRiskScore aBlock dEx).financial_data
        (calculateOverallRiskScore aBlock dEx)).safe_monthly_investment = 0 ∧
    (checkInvestmentSuitability aEx
        (calculateOverallRiskScore aEx dEx).financial_data).suitability
      ≠ Suitability.notSuitable :=
  ⟨by decide,
   ((c4_blocking_gate aBlock dEx (by decide)).1 (by decide)).1,
   ((c4_blocking_gate aBlock dEx (by decide)).1 (by decide)).2.1,
   ((c4_blocking_gate aEx dEx (by decide)).2 (by decide)).1⟩

/-! ## Confidence scorer (claim C5) -/

/-- C5: the Confidence Scorer (modelled from §4.8 of the spec, absent
from the v3 source) accumulates exactly one penalty for each of health
below 50, at least three overrides, at least two contradictions, and
investment below 1000; its score is max(40, 90 − 10·penalties) and its
level is HIGH iff the score is at least 80, MEDIUM iff it is in [60, 80),
and LOW otherwise. -/
theorem c5_confidence_formula (health : ℚ) (log : List String)
    (contradictions : ℕ) (investment : ℚ) :
    (confidenceScorer health log contradictions investment).penalties.length =
      ((if health < 50 then 1 else 0) + (if 3 ≤ log.length then 1 else 0) +
       (if 2 ≤ contradictions then 1 else 0) + (if investment < 1000 then 1 else 0) : ℕ) ∧
    (confidenceScorer health log contradictions investment).score =
      max 40 (90 - 10 *
        ((confidenceScorer health log contradictions investment).penalties.length : ℤ)) ∧
    ((confidenceScorer health log contradictions investment).level = "HIGH" ↔
      80 ≤ (confidenceScorer health log contradictions investment).score) ∧
    ((confidenceScorer health log contradictions investment).level = "MEDIUM" ↔
      (60 ≤ (confidenceScorer health log contradictions investment).score ∧
        (confidenceScorer health log contradictions investment).score < 80)) ∧
    ((confidenceScorer health log contradictions investment).level = "LOW" ↔
      (confidenceScorer health log contradictions investment).score < 60) := by
  unfold confidenceScorer
  by_cases h1 : health < 50 <;>
  by_cases h2 : 3 ≤ log.length <;>
  by_cases h3 : 2 ≤ contradictions <;>
  by_cases h4 : investment < 1000 <;>
  simp [h1, h2, h3, h4]

/-! ## Zero income (claim C6) -/

/-- C6: with monthly income 0 the Financial Health Scorer still produces
its composite score with no division: the savings-rate component and the
savings rate are 0, and the spec-modelled v1-v2 debt ratio takes its
worst-case value 1 at the resulting zero annual income, for any debt
amount. -/
theorem c6_zero_income (a : AnswerSet) (hi : a.income = 0) (debt : ℚ) :
    (calculateFinancialScore a).savings_component = 0 ∧
    (calculateFinancialScore a).savings_rate = 0 ∧
    debtRatioSpec debt (a.income * 12) = 1 ∧
    (calculateFinancialScore a).financial_score =
      round2 (0.35 * mapToScore a.emergency_fund 1 6 false +
        0.25 * mapToScore a.income_stability 1 6 true +
        0.20 * dependentsAdjustment a.dependents + 0.20 * 0) := by
  unfold calculateFinancialScore savingsRateComponent debtRatioSpec
  rw [hi]
  norm_num [round2_zero]

/-- C6 witness: the theorem evaluated at a concrete zero-income input. -/
theorem c6_witness :
    aZero.income = 0 ∧
    (calculateFinancialScore aZero).savings_component = 0 ∧
    (calculateFinancialScore aZero).savings_rate = 0 ∧
    debtRatioSpec 100000 (aZero.income * 12) = 1 :=
  ⟨by decide,
   (c6_zero_income aZero (by decide) 100000).1,
   (c6_zero_income aZero (by decide) 100000).2.1,
   (c6_zero_income aZero (by decide) 100000).2.2.1⟩

/-! ## Emergency-tier monotonicity (claim C7) -/

theorem mapToScore_mono_forward {t1 t2 : ℤ} (h : t1 ≤ t2) :
    mapToScore t1 1 6 false ≤ mapToScore t2 1 6 false := by
  unfold mapToScore
  have hc : (t1 : ℚ) ≤ (t2 : ℚ) := by exact_mod_cast h
  norm_num
  linarith

/-- C7: holding every other answer fixed, raising the emergency-fund tier
never lowers the financial health score returned by
`calculate_financial_score`. -/
theorem c7_emergency_tier_monotone (a : AnswerSet) (t1 t2 : ℤ)
    (h1 : 1 ≤ t1) (h2 : t2 ≤ 6) (hle : t1 ≤ t2) :
    (calculateFinancialScore { a with emergency_fund := t1 }).financial_score ≤
      (calculateFinancialScore { a with emergency_fund := t2 }).financial_score := by
  unfold calculateFinancialScore
  dsimp only
  apply round2_mono
  have hm := mapToScore_mono_forward hle
  linarith

/-- C7 witness: the theorem evaluated at concrete tiers 2 and 5. -/
theorem c7_witness :
    (1 : ℤ) ≤ 2 ∧ (5 : ℤ) ≤ 6 ∧ (2 : ℤ) ≤ 5 ∧
    (calculateFinancialScore { aEx with emergency_fund := 2 }).financial_score ≤
      (calculateFinancialScore { aEx with emergency_fund := 5 }).financial_score :=
  ⟨by decide, by decide, by decide,
   c7_emergency_tier_monotone aEx 2 5 (by decide) (by decide) (by decide)⟩

/-! ## Determinism (claim C8) -/

/-- C8: the scoring pipeline is a pure function of the answers, the
dependent answers and the inflation preference: two evaluations on equal
inputs give identical scores, category, allocation and investment
figures (no randomness or clock dependence in the numeric outputs). -/
theorem c8_deterministic (a1 a2 : AnswerSet) (d1 d2 : DependentAnswers)
    (p1 p2 : InflationPref) (hv : ValidAnswers a1)
    (ha : a1 = a2) (hd : d1 = d2) (hp : p1 = p2) :
    evaluateAssessment a1 d1 p1 = evaluateAssessment a2 d2 p2 := by
  subst ha; subst hd; subst hp; rfl

/-- C8 witness: the theorem evaluated at the shared concrete input. -/
theorem c8_witness :
    ValidAnswers aEx ∧
    evaluateAssessment aEx dEx InflationPref.balanced =
      evaluateAssessment aEx dEx InflationPref.balanced :=
  ⟨by decide,
   c8_deterministic aEx aEx dEx dEx InflationPref.balanced InflationPref.balanced
     (by decide) rfl rfl rfl⟩

/-! ## Validation (claim C9) -/

theorem validate_spec (r : RawAnswers) :
    ((validateAnswers r).1 = false ↔ someRequiredMissing r) ∧
    ((validateAnswers r).1 = false →
      ∃ q, (validateAnswers r).2 = [requiredMissingMsg q]) := by
  by_cases h1 : r.income.isNone
  · refine ⟨?_, fun _ => ⟨"income", ?_⟩⟩ <;>
      simp [validateAnswers, someRequiredMissing, h1]
  by_cases h2 : r.expenses.isNone
  · refine ⟨?_, fun _ => ⟨"expenses", ?_⟩⟩ <;>
      simp [validateAnswers, someRequiredMissing, h1, h2]
  by_cases h3 : r.emergency_fund.isNone
  · refine ⟨?_, fun _ => ⟨"emergency_fund", ?_⟩⟩ <;>
      simp [validateAnswers, someRequiredMissing, h1, h2, h3]
  by_cases h4 : r.loan_types.isNone
  · refine ⟨?_, fun _ => ⟨"loan_types", ?_⟩⟩ <;>
      simp [validateAnswers, someRequiredMissing, h1, h2, h3, h4]
  by_cases h5 : r.emi_percentage.isNone
  · refine ⟨?_, fun _ => ⟨"emi_percentage", ?_⟩⟩ <;>
      simp [validateAnswers, someRequiredMissing, h1, h2, h3, h4, h5]
  by_cases h6 : r.income_stability.isNone
  · refine ⟨?_, fun _ => ⟨"income_stability", ?_⟩⟩ <;>
      simp [validateAnswers, someRequiredMissing, h1, h2, h3, h4, h5, h6]
  by_cases h7 : r.dependents.isNone
  · refine ⟨?_, fun _ => ⟨"dependents", ?_⟩⟩ <;>
      simp [validateAnswers, someRequiredMissing, h1, h2, h3, h4, h5, h6, h7]
  by_cases h8 : r.primary_goal.isNone
  · refine ⟨?_, fun _ => ⟨"primary_goal", ?_⟩⟩ <;>
      simp [validateAnswers, someRequiredMissing, h1, h2, h3, h4, h5, h6, h7, h8]
  by_cases h9 : r.timeframe.isNone
  · refine ⟨?_, fun _ => ⟨"timeframe", ?_⟩⟩ <;>
      simp [validateAnswers, someRequiredMissing, h1, h2, h3, h4, h5, h6, h7, h8, h9]
  by_cases h10 : r.loss_avoidance.isNone
  · refine ⟨?_, fun _ => ⟨"loss_avoidance", ?_⟩⟩ <;>
      simp [validateAnswers, someRequiredMissing, h1, h2, h3, h4, h5, h6, h7, h8, h9, h10]
  by_cases h11 : r.market_drop_reaction.isNone
  · refine ⟨?_, fun _ => ⟨"market_drop_reaction", ?_⟩⟩ <;>
      simp [validateAnswers, someRequiredMissing, h1, h2, h3, h4, h5, h6, h7, h8, h9,
        h10, h11]
  by_cases h12 : r.experience.isNone
  · refine ⟨?_, fun _ => ⟨"experience", ?_⟩⟩ <;>
      simp [validateAnswers, someRequiredMissing, h1, h2, h3, h4, h5, h6, h7, h8, h9,
        h10, h11, h12]
  by_cases h13 : r.knowledge.isNone
  · refine ⟨?_, fun _ => ⟨"knowledge", ?_⟩⟩ <;>
      simp [validateAnswers, someRequiredMissing, h1, h2, h3, h4, h5, h6, h7, h8, h9,
        h10, h11, h12, h13]
  by_cases h14 : r.liquidity_needs.isNone
  · refine ⟨?_, fun _ => ⟨"liquidity_needs", ?_⟩⟩ <;>
      simp [validateAnswers, someRequiredMissing, h1, h2, h3, h4, h5, h6, h7, h8, h9,
        h10, h11, h12, h13, h14]
  by_cases h15 : r.age_group.isNone
  · refine ⟨?_, fun _ => ⟨"age_group", ?_⟩⟩ <;>
      simp [validateAnswers, someRequiredMissing, h1, h2, h3, h4, h5, h6, h7, h8, h9,
        h10, h11, h12, h13, h14, h15]
  refine ⟨?_, fun hf => absurd hf ?_⟩ <;>
    simp [validateAnswers, someRequiredMissing, h1, h2, h3, h4, h5, h6, h7, h8, h9,
      h10, h11, h12, h13, h14, h15]

theorem calculateResults_none (r : RawAnswers) (d : DependentAnswers)
    (h : (validateAnswers r).1 = false) : calculateResults r d = none := by
  unfold calculateResults
  simp [h]

/-- C9 counterexample: a fully answered dictionary whose emergency-fund
answer 99 is outside the 1..6 widget range still passes
`validate_answers`, so an out-of-range answer does not make validation
fail as the claim states. -/
theorem c9_counterexample :
    someAnswerOutOfRange rOut = true ∧ (validateAnswers rOut).1 = true := by
  constructor
  · decide
  · decide

/-- C9 (amended): validation fails exactly when some required question is
missing (answers outside their tier range are not rejected); on failure
the core refuses to evaluate, producing no result, and reports the
specific missing question. -/
theorem c9_validation_missing_only (r : RawAnswers) (d : DependentAnswers) :
    ((validateAnswers r).1 = false ↔ someRequiredMissing r) ∧
    ((validateAnswers r).1 = false → calculateResults r d = none) ∧
    ((validateAnswers r).1 = false →
      ∃ q, (validateAnswers r).2 = [requiredMissingMsg q]) :=
  ⟨(validate_spec r).1, calculateResults_none r d, (validate_spec r).2⟩

/-- C9 witness: the amended theorem evaluated at a concrete dictionary
with the income question unanswered. -/
theorem c9_witness :
    someRequiredMissing rMissing ∧ (validateAnswers rMissing).1 = false ∧
    calculateResults rMissing dEx = none :=
  ⟨by decide,
   (c9_validation_missing_only rMissing dEx).1.mpr (by decide),
   (c9_validation_missing_only rMissing dEx).2.1
     ((c9_validation_missing_only rMissing dEx).1.mpr (by decide))⟩

/-! ## Score ranges (claim C10) -/

theorem round2_range_0_100 {q : ℚ} (h0 : 0 ≤ q) (h1 : q ≤ 100) :
    0 ≤ round2 q ∧ round2 q ≤ 100 := by
  constructor
  · exact round2_nonneg h0
  · have := round2_le_intCast (c := 100) (q := q) (by exact_mod_cast h1)
    exact_mod_cast this

theorem mapToScore_range {t : ℤ} (rev : Bool) (h1 : 1 ≤ t) (h6 : t ≤ 6) :
    0 ≤ mapToScore t 1 6 rev ∧ mapToScore t 1 6 rev ≤ 100 := by
  unfold mapToScore
  have hc1 : (1 : ℚ) ≤ (t : ℚ) := by exact_mod_cast h1
  have hc6 : (t : ℚ) ≤ 6 := by exact_mod_cast h6
  cases rev <;> dsimp only <;> push_cast <;> norm_num <;> constructor <;> linarith

theorem savingsRateComponent_range (inc exp : ℚ) :
    0 ≤ savingsRateComponent inc exp ∧ savingsRateComponent inc exp ≤ 100 := by
  unfold savingsRateComponent
  dsimp only
  split_ifs with h1 h2 h3 <;> constructor <;> try norm_num
  · have : 0 < (inc - exp) / inc := lt_of_not_le h2
    linarith
  · have : (inc - exp) / inc < 0.3 := lt_of_not_le h3
    linarith

theorem dependentsAdjustment_range {dep : ℤ} (hd : 0 ≤ dep) :
    0 ≤ dependentsAdjustment dep ∧ dependentsAdjustment dep ≤ 100 := by
  unfold dependentsAdjustment
  constructor
  · exact le_max_left _ _
  · apply max_le (by norm_num)
    have : (0 : ℚ) ≤ (dep : ℚ) := by exact_mod_cast hd
    linarith

theorem financialScore_range (a : AnswerSet) (h : ValidAnswers a) :
    0 ≤ (calculateFinancialScore a).financial_score ∧
      (calculateFinancialScore a).financial_score ≤ 100 := by
  obtain ⟨_, _, hef1, hef6, his1, his4, hdep0, _, _⟩ := h
  have hemc := mapToScore_range false hef1 hef6
  have hisc := mapToScore_range true his1 (by omega : a.income_stability ≤ 6)
  have hdep := dependentsAdjustment_range hdep0
  have hsrc := savingsRateComponent_range a.income a.expenses
  unfold calculateFinancialScore
  dsimp only
  refine round2_range_0_100 ?_ ?_ <;> linarith [hemc.1, hemc.2, hisc.1, hisc.2,
    hdep.1, hdep.2, hsrc.1, hsrc.2]

theorem emiPercentageMap_range (e : ℤ) :
    0 ≤ emiPercentageMap e ∧ emiPercentageMap e ≤ 100 := by
  unfold emiPercentageMap
  split_ifs <;> norm_num

theorem loanTypeScore_range (loan_types : List String) :
    0 ≤ loanTypeScore loan_types ∧ loanTypeScore loan_types ≤ 100 := by
  unfold loanTypeScore
  split_ifs
  · norm_num
  · exact ⟨le_max_left _ _, max_le (by norm_num) (min_le_left _ _)⟩

theorem debtScore_range (a : AnswerSet) :
    0 ≤ (calculateDebtScore a).debt_score ∧ (calculateDebtScore a).debt_score ≤ 100 := by
  have hemi := emiPercentageMap_range a.emi_percentage
  have hlts := loanTypeScore_range a.loan_types
  unfold calculateDebtScore
  dsimp only
  refine round2_range_0_100 ?_ ?_ <;> split_ifs <;>
    linarith [hemi.1, hemi.2, hlts.1, hlts.2]

theorem riskTolerance_range (a : AnswerSet) :
    0 ≤ (calculateRiskTolerance a).risk_tolerance_score ∧
      (calculateRiskTolerance a).risk_tolerance_score ≤ 100 := by
  unfold calculateRiskTolerance
  dsimp only
  exact round2_range_0_100 (le_max_left _ _) (max_le (by norm_num) (min_le_left _ _))

theorem horizonScore_range (a : AnswerSet) (d : DependentAnswers)
    (hl1 : 1 ≤ a.liquidity_needs) (hl6 : a.liquidity_needs ≤ 6) :
    0 ≤ (calculateHorizonScore a d).horizon_score ∧
      (calculateHorizonScore a d).horizon_score ≤ 100 := by
  have hlc := mapToScore_range true hl1 hl6
  unfold calculateHorizonScore
  dsimp only
  have hadj0 : (0 : ℚ) ≤ max 0 (min 100 (mapToScore a.timeframe 1 6 false +
      (goalAdjustmentPair a.primary_goal d).1)) := le_max_left _ _
  have hadj100 : max 0 (min 100 (mapToScore a.timeframe 1 6 false +
      (goalAdjustmentPair a.primary_goal d).1)) ≤ 100 :=
    max_le (by norm_num) (min_le_left _ _)
  refine round2_range_0_100 ?_ ?_ <;> linarith [hlc.1, hlc.2]

theorem knowledgeScore_range (a : AnswerSet) (he1 : 1 ≤ a.experience)
    (he6 : a.experience ≤ 6) (hk1 : 1 ≤ a.knowledge) (hk6 : a.knowledge ≤ 6) :
    0 ≤ (calculateKnowledgeScore a).knowledge_score ∧
      (calculateKnowledgeScore a).knowledge_score ≤ 100 := by
  have hec := mapToScore_range false he1 he6
  have hkc := mapToScore_range false hk1 hk6
  unfold calculateKnowledgeScore
  dsimp only
  refine round2_range_0_100 ?_ ?_ <;> linarith [hec.1, hec.2, hkc.1, hkc.2]

/-- C10: for every valid answer set each of the five component scores
lies in [0, 100], the five weights sum to 1, the overall risk score lies
in [0, 100], and the threshold classifier returns one of the five risk
categories. -/
theorem c10_overall_score_range (a : AnswerSet) (d : DependentAnswers)
    (h : ValidAnswers a) :
    (0 ≤ (calculateOverallRiskScore a d).financial_data.financial_score ∧
      (calculateOverallRiskScore a d).financial_data.financial_score ≤ 100) ∧
    (0 ≤ (calculateOverallRiskScore a d).debt_data.debt_score ∧
      (calculateOverallRiskScore a d).debt_data.debt_score ≤ 100) ∧
    (0 ≤ (calculateOverallRiskScore a d).risk_tolerance_data.risk_tolerance_score ∧
      (calculateOverallRiskScore a d).risk_tolerance_data.risk_tolerance_score ≤ 100) ∧
    (0 ≤ (calculateOverallRiskScore a d).horizon_data.horizon_score ∧
      (calculateOverallRiskScore a d).horizon_data.horizon_score ≤ 100) ∧
    (0 ≤ (calculateOverallRiskScore a d).knowledge_data.knowledge_score ∧
      (calculateOverallRiskScore a d).knowledge_data.knowledge_score ≤ 100) ∧
    weightSum WEIGHTS = 1 ∧
    (0 ≤ (calculateOverallRiskScore a d).overall_risk_score ∧
      (calculateOverallRiskScore a d).overall_risk_score ≤ 100) ∧
    (getRiskCategory (calculateOverallRiskScore a d).overall_risk_score = RiskCategory.veryLow ∨
     getRiskCategory (calculateOverallRiskScore a d).overall_risk_score = RiskCategory.low ∨
     getRiskCategory (calculateOverallRiskScore a d).overall_risk_score = RiskCategory.medium ∨
     getRiskCategory (calculateOverallRiskScore a d).overall_risk_score = RiskCategory.high ∨
     getRiskCategory (calculateOverallRiskScore a d).overall_risk_score = RiskCategory.veryHigh) := by
  have hfin := financialScore_range a h
  have hdebt := debtScore_range a
  have htol := riskTolerance_range a
  obtain ⟨_, _, _, _, _, _, _, _, _, _, _, _, _, _, _, _, he1, he6, hk1, hk6,
    hl1, hl6, _, _⟩ := h
  have hhz := horizonScore_range a d hl1 hl6
  have hkn := knowledgeScore_range a he1 he6 hk1 hk6
  have hov : 0 ≤ (calculateOverallRiskScore a d).overall_risk_score ∧
      (calculateOverallRiskScore a d).overall_risk_score ≤ 100 := by
    unfold calculateOverallRiskScore
    dsimp only
    simp only [WEIGHTS]
    refine round2_range_0_100 ?_ ?_ <;>
      linarith [hfin.1, hfin.2, hdebt.1, hdebt.2, htol.1, htol.2,
        hhz.1, hhz.2, hkn.1, hkn.2]
  refine ⟨hfin, hdebt, htol, hhz, hkn, by norm_num [weightSum, WEIGHTS], hov, ?_⟩
  unfold getRiskCategory
  split_ifs <;> simp

/-- C10 witness: the theorem evaluated at the shared concrete input. -/
theorem c10_witness :
    ValidAnswers aEx ∧
    0 ≤ (calculateOverallRiskScore aEx dEx).overall_risk_score ∧
    (calculateOverallRiskScore aEx dEx).overall_risk_score ≤ 100 :=
  ⟨by decide,
   (c10_overall_score_range aEx dEx (by decide)).2.2.2.2.2.2.1.1,
   (c10_overall_score_range aEx dEx (by decide)).2.2.2.2.2.2.1.2⟩

end StockAdvisor
